import Mathlib

/-!
Verification of the Toronto Bike Share dashboard (`app.py`) against its
natural-language specification.

The embedding models:
* the session state initialised at the top of `app.py` and the Reset button
  handler,
* the `get_data` fetch-and-join pipeline together with the
  `handle_api_error` decorator and the `st.cache_data(ttl=60)` cache,
* the candidate-selection algorithm (`get_bike_availability` /
  `get_dock_availability`, which live in the repository's `helpers` module)
  and the haversine distance it ranks by.

Machine state (the cache, the session state) is embedded as explicit state
passing; fallible operations return `Option` or `Except`.
-/

namespace BikeShare

/-! ## Feed rows and the join (`get_data` in `app.py`) -/

/-- One entry of the live station-status feed after parsing
(`query_station_status`): identifier plus bike/dock counts. -/
structure StatusRow where
  station_id : String
  num_bikes_available : Nat
  mechanical : Nat
  ebike : Nat
  num_docks_available : Nat
deriving Repr, DecidableEq

/-- One entry of the static station-information feed after parsing
(`get_station_latlon`): identifier plus coordinates (degrees, as rationals). -/
structure LatlonRow where
  station_id : String
  lat : ℚ
  lon : ℚ
deriving Repr, DecidableEq

/-- A station row after the join: the union of the fields of both feeds. -/
structure JoinedRow where
  station_id : String
  num_bikes_available : Nat
  mechanical : Nat
  ebike : Nat
  num_docks_available : Nat
  lat : ℚ
  lon : ℚ
deriving Repr, DecidableEq

/-- Modelled from the spec: `join_latlon` lives in the repository's `helpers`
module, which is not part of the sources here.  The spec describes it as an
inner join on station identifier ("a station must appear in both to be
included in the result"), with non-matching rows silently dropped
(§9: "the source's join between live status and static metadata silently
drops non-matching rows").  Each status row is kept iff some metadata row
carries the same identifier, taking the coordinates from the first match. -/
def join_latlon (status : List StatusRow) (latlon : List LatlonRow) :
    List JoinedRow :=
  status.filterMap fun s =>
    match latlon.find? (fun l => l.station_id = s.station_id) with
    | some l =>
        some ⟨s.station_id, s.num_bikes_available, s.mechanical, s.ebike,
              s.num_docks_available, l.lat, l.lon⟩
    | none => none

/-- The elementary operations `get_data` can perform, in order to state which
of them a given run invokes. -/
inductive FetchOp where
  | fetchStatus
  | fetchLatlon
  | join
deriving Repr, DecidableEq

/-- The body of `get_data` (`app.py` lines 69–76), with the results of the two
network retrievals passed in as `Option`s (`None` models a failed retrieval,
exactly the `is None` checks of the source).  Returns the result together
with the list of operations the run actually invoked:

```python
def get_data():
    data_df = query_station_status(station_url)
    if data_df is None:
        return None
    latlon_df = get_station_latlon(latlon_url)
    if latlon_df is None:
        return None
    return join_latlon(data_df, latlon_df)
``` -/
def get_data (status : Option (List StatusRow)) (latlon : Option (List LatlonRow)) :
    Option (List JoinedRow) × List FetchOp :=
  match status with
  | none => (none, [FetchOp.fetchStatus])
  | some s =>
    match latlon with
    | none => (none, [FetchOp.fetchStatus, FetchOp.fetchLatlon])
    | some l =>
        (some (join_latlon s l),
         [FetchOp.fetchStatus, FetchOp.fetchLatlon, FetchOp.join])

/-! ## The `handle_api_error` decorator -/

/-- The exceptions distinguished by the `handle_api_error` decorator
(`app.py` lines 27–38): `urllib.error.URLError` and
`requests.RequestException` on one branch, every other exception on the
other. -/
inductive ApiException where
  | urlError (msg : String)
  | requestException (msg : String)
  | otherException (msg : String)
deriving Repr, DecidableEq

/-- The error banner `handle_api_error` displays for each exception class. -/
def errorBanner : ApiException → String
  | ApiException.urlError m =>
      "Error fetching data: " ++ m ++ ". Please try again later."
  | ApiException.requestException m =>
      "Error fetching data: " ++ m ++ ". Please try again later."
  | ApiException.otherException m =>
      "An unexpected error occurred: " ++ m ++ ". Please try again later."

/-- `handle_api_error` (`app.py` lines 27–38): runs the wrapped function; a
normal return value passes through, while every exception is caught,
an error banner is displayed (`st.error`), and `None` is returned.
The embedding takes the wrapped function's outcome as an `Except` and
returns the caller-visible value together with the banners displayed. -/
def handle_api_error {α : Type} (result : Except ApiException α) :
    Option α × List String :=
  match result with
  | Except.ok a => (some a, [])
  | Except.error e => (none, [errorBanner e])

/-! ## The snapshot cache (`@st.cache_data(ttl=60)` on `get_data`) -/

/-- The cache TTL of `get_data`, in seconds (`@st.cache_data(ttl=60)`). -/
def TTL : ℚ := 60

/-- The hard staleness ceiling the spec postulates (§4.1: "a hard staleness
ceiling (e.g., 10 minutes)"), in seconds. -/
def staleCeiling : ℚ := 600

/-- State of the cache wrapped around `get_data`: the value stored by the
last completed call, if any, together with the time it was stored. -/
structure CacheState (α : Type) where
  entry : Option (α × ℚ)
deriving Repr, DecidableEq

/-- Modelled from the spec: the caching behaviour of
`@st.cache_data(ttl=60)` is implemented by the Streamlit library, not by
this repository.  Per the spec's lifecycle ("populate on first call,
replace when older than TTL (60 seconds), otherwise return the held value
unchanged"), a call at time `now` returns the held entry when one exists
and is younger than the TTL; otherwise it runs the wrapped function —
whose outcome, after `handle_api_error`, is `fetched` (`none` on failure) —
stores that outcome, and returns it.  The `Bool` records whether the
wrapped function (i.e. a network fetch) ran. -/
def cache_data {α : Type} (st : CacheState α) (now : ℚ) (fetched : α) :
    α × CacheState α × Bool :=
  match st.entry with
  | some (v, t) =>
      if now - t < TTL then (v, st, false)
      else (fetched, ⟨some (fetched, now)⟩, true)
  | none => (fetched, ⟨some (fetched, now)⟩, true)

/-- The message `app.py` shows when `get_data()` came back `None`
(lines 350–351). -/
def fetchFailBanner : String :=
  "Unable to fetch bike share data. Please try again later."

/-- `app.py` lines 82 and 350–351: the dashboard is rendered when the data is
present; when `get_data()` returned `None`, the fetch-failure banner is
shown instead. -/
def fetch_result_banner : Option (List JoinedRow) → Option String
  | none => some fetchFailBanner
  | some _ => none

/-- A concrete one-station snapshot, used to instantiate the cache theorems. -/
def sampleSnapshot : List JoinedRow :=
  [⟨"7000", 5, 3, 2, 10, 43, -79⟩]

/-! ## Candidate selection
(`get_bike_availability` / `get_dock_availability` in `helpers`) -/

/-- The operation the user asked for in the sidebar. -/
inductive Mode where
  | Rent
  | Return
deriving Repr, DecidableEq

/-- The bike types offered by the `input_bike_modes` multiselect. -/
inductive BikeType where
  | mechanical
  | ebike
deriving Repr, DecidableEq

/-- Spec §3: `bikes_total` = mechanical + ebike. -/
def bikes_total (s : JoinedRow) : Nat := s.mechanical + s.ebike

/-- The per-type availability count of a station. -/
def typeCount (s : JoinedRow) : BikeType → Nat
  | BikeType.mechanical => s.mechanical
  | BikeType.ebike => s.ebike

/-- Spec §4.3 step 1, the viability filter: for RENT, `bikes_total > 0` and,
if the type filter is non-empty, at least one requested type's count > 0;
for RETURN, `docks_available > 0`. -/
def viable (mode : Mode) (types : List BikeType) (s : JoinedRow) : Bool :=
  match mode with
  | Mode.Rent =>
      decide (0 < bikes_total s) &&
        (types.isEmpty || types.any fun t => decide (0 < typeCount s t))
  | Mode.Return => decide (0 < s.num_docks_available)

/-- A geocoded user location (degrees, as rationals). -/
structure UserLocation where
  lat : ℚ
  lon : ℚ
deriving Repr, DecidableEq

/-- Well-formedness of a coordinate pair: latitude in [-90, 90], longitude
in [-180, 180]. -/
def validLocation (loc : UserLocation) : Bool :=
  decide (-90 ≤ loc.lat) && decide (loc.lat ≤ 90) &&
    decide (-180 ≤ loc.lon) && decide (loc.lon ≤ 180)

/-- The error the selector raises on an out-of-domain location
(spec §7: `InvalidLocationError`). -/
inductive SelectError where
  | invalidLocation
deriving Repr, DecidableEq

/-- Strict "ranks ahead of": strictly smaller distance, or equal distance and
lexicographically smaller station identifier. -/
def better (d : JoinedRow → ℚ) (a b : JoinedRow) : Bool :=
  decide (d a < d b) ||
    (decide (d a = d b) && decide (a.station_id < b.station_id))

/-- The minimum of a list of stations under `better`, `none` on the empty
list. -/
def selectBest (d : JoinedRow → ℚ) : List JoinedRow → Option JoinedRow
  | [] => none
  | s :: rest =>
    match selectBest d rest with
    | none => some s
    | some b => if better d s b then some s else some b

/-- Modelled from the spec: `get_bike_availability` and
`get_dock_availability` live in the repository's `helpers` module, which is
not part of the sources here.  Spec §4.3:
`select(location, data, mode, bike_types)` validates the location
(out-of-range coordinates fail fast with `InvalidLocationError` before
ranking begins), filters the snapshot by operation viability, ranks the
survivors by distance from the location, and returns the minimum —
ties broken by lowest `station_id` — or `None` when no station survives.
The distance function is a parameter (`d`), because the spec fixes it to
the haversine distance, a real-valued function defined separately below;
the ranking properties hold for every distance function, the haversine
one included. -/
def select (loc : UserLocation) (d : UserLocation → JoinedRow → ℚ)
    (data : List JoinedRow) (mode : Mode) (types : List BikeType) :
    Except SelectError (Option JoinedRow) :=
  if validLocation loc then
    Except.ok (selectBest (d loc) (data.filter (viable mode types)))
  else
    Except.error SelectError.invalidLocation

/-- The ranking key of a station: distance first, then the station
identifier, compared lexicographically. -/
def rankKey (d : JoinedRow → ℚ) (s : JoinedRow) : ℚ ×ₗ String :=
  toLex (d s, s.station_id)

/-- The banner `app.py` shows when no station survives filtering
(lines 278 and 333). -/
def noCandidateBanner : Mode → String
  | Mode.Rent => "No available bikes found at nearby stations."
  | Mode.Return => "No available docks found at nearby stations."

/-- The banner of the `except` blocks around the selection calls
(`app.py` lines 279–280 and 334–335). -/
def selectErrorBanner : Mode → String
  | Mode.Rent => "Error finding a bike: InvalidLocationError"
  | Mode.Return => "Error finding a dock: InvalidLocationError"

/-- The caller-visible outcome of one request in `app.py`: a `None` data
fetch shows the fetch-failure banner (lines 350–351); with data present,
a selection returning no candidate shows the no-candidate banner
(lines 278 / 333), an error shows the exception banner (lines 279–280 /
334–335), and a chosen station leads to the route rendering. -/
def app_banner (dataResult : Option (List JoinedRow)) (loc : UserLocation)
    (d : UserLocation → JoinedRow → ℚ) (mode : Mode)
    (types : List BikeType) : String :=
  match dataResult with
  | none => fetchFailBanner
  | some data =>
    match select loc d data mode types with
    | Except.error _ => selectErrorBanner mode
    | Except.ok none => noCandidateBanner mode
    | Except.ok (some s) => "Route to station " ++ s.station_id

/-- Station A of the spec §8 example: `bikes_total = 0`. -/
def stationA : JoinedRow := ⟨"A", 0, 0, 0, 5, 43, -79⟩

/-- Station B of the spec §8 example: `bikes_total = 3`, 500 m away. -/
def stationB : JoinedRow := ⟨"B", 3, 3, 0, 5, 44, -79⟩

/-- Station C of the spec §8 example: `bikes_total = 5`, 200 m away. -/
def stationC : JoinedRow := ⟨"C", 5, 2, 3, 5, 45, -79⟩

/-- The distances of the spec §8 example (metres from the user). -/
def exampleDist (_ : UserLocation) (s : JoinedRow) : ℚ :=
  if s.station_id = "A" then 100
  else if s.station_id = "B" then 500
  else 200

/-- A well-formed user location in Toronto. -/
def torontoLoc : UserLocation := ⟨⟨43653, 1000, by norm_num, by norm_num⟩, -79⟩

/-- A status row whose identifier has no counterpart in the metadata feed. -/
def sampleStatusA : StatusRow := ⟨"A", 1, 1, 0, 1⟩

/-- A metadata row whose identifier has no counterpart in the status feed. -/
def sampleLatlonB : LatlonRow := ⟨"B", 43, -79⟩

/-! ## Haversine distance -/

/-- Degrees to radians. -/
noncomputable def deg2rad (x : ℝ) : ℝ := x * Real.pi / 180

/-- The haversine of an angle: `sin²(θ/2)`. -/
noncomputable def hav (θ : ℝ) : ℝ := Real.sin (θ / 2) ^ 2

/-- The mean Earth radius (metres) of the WGS84 sphere approximation. -/
noncomputable def earthRadius : ℝ := 6371000

/-- Modelled from the spec: the haversine distance lives in the
repository's `helpers` module, which is not part of the sources here.
Spec §4.3 step 2: the great-circle (haversine) distance on the WGS84
sphere between two latitude/longitude pairs given in degrees:
`2R·arcsin √(hav Δφ + cos φ₁ · cos φ₂ · hav Δλ)`. -/
noncomputable def haversine (lat1 lon1 lat2 lon2 : ℝ) : ℝ :=
  2 * earthRadius * Real.arcsin (Real.sqrt
    (hav (deg2rad lat2 - deg2rad lat1) +
      Real.cos (deg2rad lat1) * Real.cos (deg2rad lat2) *
        hav (deg2rad lon2 - deg2rad lon1)))

/-! ## Session state and the Reset button -/

/-- The value held by `st.session_state.iamhere` / `iamhere_return`: the
source initialises them to the integer `0` and later stores geocoded
coordinates in them. -/
inductive LocValue where
  | zero
  | coords (lat lon : ℚ)
deriving Repr, DecidableEq

/-- The Streamlit session state of `app.py`: the six fields initialised at
lines 42–53 plus the sidebar widget fields keyed into the session state. -/
structure SessionState where
  bike_method : String
  input_bike_modes : List String
  findmeabike : Bool
  findmeadock : Bool
  iamhere : LocValue
  iamhere_return : LocValue
  input_street : String
  input_city : String
  input_country : String
  drive : Bool
  input_street_return : String
  input_city_return : String
  input_country_return : String
deriving Repr, DecidableEq

/-- The initial values the source assigns at lines 42–53 (widget fields take
their widget defaults). -/
def initState : SessionState where
  bike_method := "Rent"
  input_bike_modes := []
  findmeabike := false
  findmeadock := false
  iamhere := LocValue.zero
  iamhere_return := LocValue.zero
  input_street := ""
  input_city := "Toronto"
  input_country := "Canada"
  drive := false
  input_street_return := ""
  input_city_return := "Toronto"
  input_country_return := "Canada"

/-- The Reset button handler (`app.py` lines 342–348):

```python
st.session_state.findmeabike = False
st.session_state.findmeadock = False
st.session_state.iamhere = 0
st.session_state.iamhere_return = 0
st.session_state.input_bike_modes = []
``` -/
def reset (s : SessionState) : SessionState :=
  { s with
    findmeabike := false
    findmeadock := false
    iamhere := LocValue.zero
    iamhere_return := LocValue.zero
    input_bike_modes := [] }

end BikeShare

namespace BikeShare

/-! ## Theorems -/

/-- C9: in every run of `get_data`, if the live-status retrieval returned
`None` or the metadata retrieval returned `None`, the result is `None` and
the join operation is never invoked. -/
theorem get_data_none_skips_join (status : Option (List StatusRow))
    (latlon : Option (List LatlonRow)) (h : status = none ∨ latlon = none) :
    (get_data status latlon).1 = none ∧
      FetchOp.join ∉ (get_data status latlon).2 := by
  rcases h with h | h
  · subst h
    simp [get_data]
  · subst h
    cases status with
    | none => simp [get_data]
    | some s => simp [get_data]

/-- Witness for C9 at a concrete input: the status feed succeeded with an
empty frame but the metadata retrieval failed. -/
theorem get_data_none_skips_join_witness :
    ((some ([] : List StatusRow) = none ∨ (none : Option (List LatlonRow)) = none) ∧
      (get_data (some []) none).1 = none ∧
        FetchOp.join ∉ (get_data (some []) none).2) :=
  ⟨Or.inr rfl, get_data_none_skips_join (some []) none (Or.inr rfl)⟩

/-- C1: on the first call the cache is populated (the fetch runs and its
value is stored); any later call within the 60-second TTL of the store
returns the identical held value, leaves the cache state unchanged, and
performs no second fetch. -/
theorem cache_ttl_hit {α : Type} (v0 f1 : α) (t0 t1 : ℚ) (h : t1 - t0 < TTL) :
    cache_data (⟨none⟩ : CacheState α) t0 v0 = (v0, ⟨some (v0, t0)⟩, true) ∧
    cache_data (⟨some (v0, t0)⟩ : CacheState α) t1 f1 =
      (v0, ⟨some (v0, t0)⟩, false) := by
  refine ⟨rfl, ?_⟩
  simp [cache_data, h]

/-- Witness for C1: a first call at `t = 0` stores the sample snapshot; a
second call at `t = 30` returns it unchanged without fetching. -/
theorem cache_ttl_hit_witness :
    ((30 : ℚ) - 0 < TTL) ∧
    (cache_data (⟨none⟩ : CacheState (Option (List JoinedRow))) 0
        (some sampleSnapshot) =
        (some sampleSnapshot, ⟨some (some sampleSnapshot, 0)⟩, true) ∧
      cache_data (⟨some (some sampleSnapshot, 0)⟩ :
          CacheState (Option (List JoinedRow))) 30 none =
        (some sampleSnapshot, ⟨some (some sampleSnapshot, 0)⟩, false)) :=
  ⟨by norm_num [TTL],
   cache_ttl_hit (some sampleSnapshot) none 0 30 (by norm_num [TTL])⟩

/-- C2 counterexample: a transport failure (`urllib.error.URLError`, e.g. a
timeout) during `get_data` is caught by `handle_api_error`, which returns
`None` to the caller — the very value that represents absent data — so no
typed error reaches the caller.  This falsifies "every transport or parse
failure propagates to the caller as a typed error". -/
theorem handle_api_error_swallows :
    (handle_api_error (Except.error (ApiException.urlError "timed out") :
        Except ApiException (List JoinedRow))).1 = none := rfl

/-- C2 as amended: `handle_api_error` catches every exception class — it
displays an error banner (so the failure is not silent) and returns `None`
to the caller in place of a typed error, while a normal result passes
through unchanged. -/
theorem handle_api_error_catches_all {α : Type} (e : ApiException) (a : α) :
    handle_api_error (Except.error e : Except ApiException α) =
      (none, [errorBanner e]) ∧
    handle_api_error (Except.ok a : Except ApiException α) = (some a, []) :=
  ⟨rfl, rfl⟩

/-- C3 counterexample: the cache holds a good snapshot stored 120 seconds
ago — older than the TTL but well inside the spec's 10-minute staleness
ceiling — and the refetch fails.  `get_data` returns `None` (and caches
the `None`), not the recent last-good snapshot, and no `StaleDataError`
exists anywhere in the code. -/
theorem cache_no_stale_serving :
    ((120 : ℚ) - 0 ≤ staleCeiling) ∧
    cache_data (⟨some (some sampleSnapshot, 0)⟩ :
        CacheState (Option (List JoinedRow))) 120
        ((handle_api_error (Except.error (ApiException.urlError "timed out") :
            Except ApiException (List JoinedRow))).1) =
      (none, ⟨some (none, 120)⟩, true) := by
  refine ⟨by norm_num [staleCeiling], ?_⟩
  norm_num [cache_data, handle_api_error, TTL]

/-- C3 as amended: once the TTL has expired, a failed fetch makes `get_data`
return `None` no matter how recent the previous snapshot is; the `None`
replaces the cached value, and `app.py` reacts to it with the generic
fetch-failure banner (lines 350–351) rather than any `StaleDataError`. -/
theorem cache_failure_returns_none (v0 : Option (List JoinedRow)) (t0 t1 : ℚ)
    (h : TTL ≤ t1 - t0) (e : ApiException) :
    cache_data (⟨some (v0, t0)⟩ : CacheState (Option (List JoinedRow))) t1
        ((handle_api_error (Except.error e :
            Except ApiException (List JoinedRow))).1) =
      (none, ⟨some (none, t1)⟩, true) ∧
    fetch_result_banner none = some fetchFailBanner := by
  refine ⟨?_, rfl⟩
  have h' : ¬ t1 - t0 < TTL := not_lt.mpr h
  simp [cache_data, handle_api_error, h']

/-- Witness for the amended C3: previous snapshot stored at `t = 0`, failed
refetch at `t = 120`. -/
theorem cache_failure_returns_none_witness :
    (TTL ≤ (120 : ℚ) - 0) ∧
    (cache_data (⟨some (some sampleSnapshot, 0)⟩ :
        CacheState (Option (List JoinedRow))) 120
        ((handle_api_error (Except.error (ApiException.urlError "down") :
            Except ApiException (List JoinedRow))).1) =
      (none, ⟨some (none, 120)⟩, true) ∧
    fetch_result_banner none = some fetchFailBanner) :=
  ⟨by norm_num [TTL],
   cache_failure_returns_none (some sampleSnapshot) 0 120 (by norm_num [TTL])
     (ApiException.urlError "down")⟩

lemma better_true_iff (d : JoinedRow → ℚ) (a b : JoinedRow) :
    better d a b = true ↔ rankKey d a < rankKey d b := by
  simp [better, rankKey, Prod.Lex.lt_iff]

lemma better_false_iff (d : JoinedRow → ℚ) (a b : JoinedRow) :
    better d a b = false ↔ rankKey d b ≤ rankKey d a := by
  rw [← Bool.not_eq_true, better_true_iff, not_lt]

lemma selectBest_eq_none_iff (d : JoinedRow → ℚ) (l : List JoinedRow) :
    selectBest d l = none ↔ l = [] := by
  cases l with
  | nil => simp [selectBest]
  | cons a rest =>
    cases h : selectBest d rest with
    | none => simp [selectBest, h]
    | some b =>
      simp only [selectBest, h]
      split <;> simp

lemma selectBest_spec (d : JoinedRow → ℚ) (l : List JoinedRow) (hne : l ≠ []) :
    ∃ s, selectBest d l = some s ∧ s ∈ l ∧
      ∀ t ∈ l, rankKey d s ≤ rankKey d t := by
  induction l with
  | nil => exact absurd rfl hne
  | cons a rest ih =>
    cases hr : selectBest d rest with
    | none =>
      have h0 : rest = [] := (selectBest_eq_none_iff d rest).mp hr
      subst h0
      refine ⟨a, by simp [selectBest], by simp, ?_⟩
      intro t ht
      simp at ht
      subst ht
      exact le_refl _
    | some b =>
      have hrest : rest ≠ [] := by
        intro h0
        subst h0
        simp [selectBest] at hr
      obtain ⟨s, hs, hmem, hmin⟩ := ih hrest
      rw [hr] at hs
      have hsb : b = s := by injection hs
      subst hsb
      by_cases hb : better d a b = true
      · refine ⟨a, by simp [selectBest, hr, hb], by simp, ?_⟩
        intro t ht
        rcases List.mem_cons.mp ht with h | h
        · subst h; exact le_refl _
        · exact le_of_lt
            (lt_of_lt_of_le ((better_true_iff d a b).mp hb) (hmin t h))
      · have hb' : better d a b = false := by
          revert hb; cases better d a b <;> simp
        refine ⟨b, ?_, List.mem_cons_of_mem _ hmem, ?_⟩
        · simp [selectBest, hr, hb']
        · intro t ht
          rcases List.mem_cons.mp ht with h | h
          · rw [h]; exact (better_false_iff d a b).mp hb'
          · exact hmin t h

lemma rankKey_le_iff (d : JoinedRow → ℚ) (s t : JoinedRow) :
    rankKey d s ≤ rankKey d t ↔
      d s < d t ∨ (d s = d t ∧ s.station_id ≤ t.station_id) := by
  simp [rankKey, Prod.Lex.le_iff]

lemma rankKey_inj (d : JoinedRow → ℚ) (s t : JoinedRow)
    (h : rankKey d s = rankKey d t) :
    d s = d t ∧ s.station_id = t.station_id := by
  have h' := toLex_inj.mp h
  exact ⟨congrArg Prod.fst h', congrArg Prod.snd h'⟩

/-- C4: for a valid location and a snapshot with pairwise distinct station
identifiers in which at least one station survives the viability filter,
the selector returns exactly the station that survives the filter and has
minimum distance among the survivors, ties broken by lexicographically
lowest `station_id`; any station with the same minimality property is that
one station.  Stated for an arbitrary distance function `d`, so it holds
in particular for the haversine distance. -/
theorem select_returns_nearest (loc : UserLocation)
    (d : UserLocation → JoinedRow → ℚ) (data : List JoinedRow) (mode : Mode)
    (types : List BikeType) (hloc : validLocation loc = true)
    (hids : (data.map JoinedRow.station_id).Nodup)
    (hne : ∃ t ∈ data, viable mode types t = true) :
    ∃ s, select loc d data mode types = Except.ok (some s) ∧
      s ∈ data ∧ viable mode types s = true ∧
      (∀ t ∈ data, viable mode types t = true →
        d loc s < d loc t ∨
          (d loc s = d loc t ∧ s.station_id ≤ t.station_id)) ∧
      (∀ s', s' ∈ data → viable mode types s' = true →
        (∀ t ∈ data, viable mode types t = true →
          d loc s' < d loc t ∨
            (d loc s' = d loc t ∧ s'.station_id ≤ t.station_id)) →
        s' = s) := by
  have hsel : select loc d data mode types =
      Except.ok (selectBest (d loc) (data.filter (viable mode types))) := by
    simp [select, hloc]
  have hfil : data.filter (viable mode types) ≠ [] := by
    intro h0
    obtain ⟨t, ht, hv⟩ := hne
    have := List.filter_eq_nil_iff.mp h0 t ht
    simp [hv] at this
  obtain ⟨s, hs, hmem, hmin⟩ :=
    selectBest_spec (d loc) (data.filter (viable mode types)) hfil
  obtain ⟨hsd, hsv⟩ := List.mem_filter.mp hmem
  have hminD : ∀ t ∈ data, viable mode types t = true →
      d loc s < d loc t ∨
        (d loc s = d loc t ∧ s.station_id ≤ t.station_id) := by
    intro t ht hv
    exact (rankKey_le_iff (d loc) s t).mp
      (hmin t (List.mem_filter.mpr ⟨ht, hv⟩))
  refine ⟨s, by rw [hsel, hs], hsd, hsv, hminD, ?_⟩
  intro s' hs'd hs'v hs'min
  have h1 : rankKey (d loc) s' ≤ rankKey (d loc) s :=
    (rankKey_le_iff (d loc) s' s).mpr (hs'min s hsd hsv)
  have h2 : rankKey (d loc) s ≤ rankKey (d loc) s' :=
    (rankKey_le_iff (d loc) s s').mpr (hminD s' hs'd hs'v)
  have heq := rankKey_inj (d loc) s' s (le_antisymm h1 h2)
  exact List.inj_on_of_nodup_map hids hs'd hsd heq.2

/-- Witness for C4 at the spec §8 example: stations A (no bikes), B
(3 bikes, 500 m) and C (5 bikes, 200 m); the selector returns the viable
station of minimum distance. -/
theorem select_returns_nearest_witness :
    validLocation torontoLoc = true ∧
    (([stationA, stationB, stationC].map JoinedRow.station_id).Nodup) ∧
    (∃ t ∈ [stationA, stationB, stationC], viable Mode.Rent [] t = true) ∧
    (∃ s, select torontoLoc exampleDist [stationA, stationB, stationC]
        Mode.Rent [] = Except.ok (some s) ∧
      s ∈ [stationA, stationB, stationC] ∧ viable Mode.Rent [] s = true ∧
      (∀ t ∈ [stationA, stationB, stationC], viable Mode.Rent [] t = true →
        exampleDist torontoLoc s < exampleDist torontoLoc t ∨
          (exampleDist torontoLoc s = exampleDist torontoLoc t ∧
            s.station_id ≤ t.station_id)) ∧
      (∀ s', s' ∈ [stationA, stationB, stationC] →
        viable Mode.Rent [] s' = true →
        (∀ t ∈ [stationA, stationB, stationC], viable Mode.Rent [] t = true →
          exampleDist torontoLoc s' < exampleDist torontoLoc t ∨
            (exampleDist torontoLoc s' = exampleDist torontoLoc t ∧
              s'.station_id ≤ t.station_id)) →
        s' = s)) :=
  ⟨by decide, by decide, by decide,
   select_returns_nearest torontoLoc exampleDist [stationA, stationB, stationC]
     Mode.Rent [] (by decide) (by decide) (by decide)⟩

/-- The spec §8 example, evaluated: among A (no bikes), B (3 bikes, 500 m)
and C (5 bikes, 200 m), `select` returns C. -/
theorem select_example_returns_C :
    select torontoLoc exampleDist [stationA, stationB, stationC]
      Mode.Rent [] = Except.ok (some stationC) := by rfl

/-- C5: when no station in the snapshot survives the viability filter (in
particular when the snapshot is empty), the selector returns `None` as an
ordinary value — never an error — and the caller-visible banner for this
outcome differs from the one shown for a data-fetch failure. -/
theorem select_none_when_no_survivor (loc : UserLocation)
    (d : UserLocation → JoinedRow → ℚ) (data : List JoinedRow) (mode : Mode)
    (types : List BikeType) (hloc : validLocation loc = true)
    (hnone : ∀ t ∈ data, viable mode types t = false) :
    select loc d data mode types = Except.ok none ∧
    app_banner (some data) loc d mode types = noCandidateBanner mode ∧
    app_banner none loc d mode types = fetchFailBanner ∧
    noCandidateBanner mode ≠ fetchFailBanner := by
  have hfil : data.filter (viable mode types) = [] := by
    rw [List.filter_eq_nil_iff]
    intro t ht
    simp [hnone t ht]
  have hsel : select loc d data mode types = Except.ok none := by
    simp [select, hloc, hfil, selectBest]
  refine ⟨hsel, ?_, rfl, ?_⟩
  · simp [app_banner, hsel]
  · cases mode <;> decide

/-- Witness for C5: station A alone (no bikes at all) under a rent request
with no type filter. -/
theorem select_none_when_no_survivor_witness :
    validLocation torontoLoc = true ∧
    (∀ t ∈ [stationA], viable Mode.Rent [] t = false) ∧
    (select torontoLoc exampleDist [stationA] Mode.Rent [] =
        Except.ok none ∧
      app_banner (some [stationA]) torontoLoc exampleDist Mode.Rent [] =
        noCandidateBanner Mode.Rent ∧
      app_banner none torontoLoc exampleDist Mode.Rent [] = fetchFailBanner ∧
      noCandidateBanner Mode.Rent ≠ fetchFailBanner) :=
  ⟨by decide, by decide,
   select_none_when_no_survivor torontoLoc exampleDist [stationA] Mode.Rent []
     (by decide) (by decide)⟩

/-- C8: an out-of-range location makes the selector fail fast with
`InvalidLocationError`; no station is ranked or returned for such input. -/
theorem select_invalid_location_fails (loc : UserLocation)
    (d : UserLocation → JoinedRow → ℚ) (data : List JoinedRow) (mode : Mode)
    (types : List BikeType) (h : validLocation loc = false) :
    select loc d data mode types = Except.error SelectError.invalidLocation ∧
    ∀ s : JoinedRow, select loc d data mode types ≠ Except.ok (some s) := by
  have hsel : select loc d data mode types =
      Except.error SelectError.invalidLocation := by
    simp [select, h]
  refine ⟨hsel, ?_⟩
  intro s hcontra
  rw [hsel] at hcontra
  cases hcontra

/-- Witness for C8: latitude 100 is out of range. -/
theorem select_invalid_location_fails_witness :
    validLocation ⟨100, 0⟩ = false ∧
    (select ⟨100, 0⟩ exampleDist [stationA, stationB, stationC] Mode.Rent [] =
        Except.error SelectError.invalidLocation ∧
      ∀ s : JoinedRow,
        select ⟨100, 0⟩ exampleDist [stationA, stationB, stationC]
          Mode.Rent [] ≠ Except.ok (some s)) :=
  ⟨by decide,
   select_invalid_location_fails ⟨100, 0⟩ exampleDist
     [stationA, stationB, stationC] Mode.Rent [] (by decide)⟩

lemma join_latlon_cons_found (r : StatusRow) (rest : List StatusRow)
    (l : List LatlonRow) (m : LatlonRow)
    (h : l.find? (fun x => x.station_id = r.station_id) = some m) :
    join_latlon (r :: rest) l =
      ⟨r.station_id, r.num_bikes_available, r.mechanical, r.ebike,
        r.num_docks_available, m.lat, m.lon⟩ :: join_latlon rest l := by
  simp only [join_latlon, List.filterMap_cons, h]

lemma join_latlon_cons_notfound (r : StatusRow) (rest : List StatusRow)
    (l : List LatlonRow)
    (h : l.find? (fun x => x.station_id = r.station_id) = none) :
    join_latlon (r :: rest) l = join_latlon rest l := by
  simp only [join_latlon, List.filterMap_cons, h]

lemma join_latlon_ids_sublist (s : List StatusRow) (l : List LatlonRow) :
    List.Sublist ((join_latlon s l).map JoinedRow.station_id)
      (s.map StatusRow.station_id) := by
  induction s with
  | nil => simp [join_latlon]
  | cons r rest ih =>
    cases h : l.find? (fun x => x.station_id = r.station_id) with
    | some m =>
      rw [join_latlon_cons_found r rest l m h]
      simp only [List.map_cons]
      exact List.Sublist.cons₂ _ ih
    | none =>
      rw [join_latlon_cons_notfound r rest l h]
      exact ih.cons r.station_id

lemma mem_join_latlon_ids (s : List StatusRow) (l : List LatlonRow)
    (i : String) :
    i ∈ (join_latlon s l).map JoinedRow.station_id ↔
      i ∈ s.map StatusRow.station_id ∧ i ∈ l.map LatlonRow.station_id := by
  induction s with
  | nil => simp [join_latlon]
  | cons r rest ih =>
    cases h : l.find? (fun x => x.station_id = r.station_id) with
    | some m =>
      rw [join_latlon_cons_found r rest l m h]
      have hm : m ∈ l := List.mem_of_find?_eq_some h
      have hmid : m.station_id = r.station_id := by
        simpa using List.find?_some h
      simp only [List.map_cons, List.mem_cons]
      constructor
      · rintro (rfl | hmem)
        · exact ⟨Or.inl rfl, List.mem_map.mpr ⟨m, hm, hmid⟩⟩
        · obtain ⟨h1, h2⟩ := ih.mp hmem
          exact ⟨Or.inr h1, h2⟩
      · rintro ⟨rfl | h1, h2⟩
        · exact Or.inl rfl
        · exact Or.inr (ih.mpr ⟨h1, h2⟩)
    | none =>
      rw [join_latlon_cons_notfound r rest l h]
      rw [ih]
      simp only [List.map_cons, List.mem_cons]
      constructor
      · rintro ⟨h1, h2⟩
        exact ⟨Or.inr h1, h2⟩
      · rintro ⟨rfl | h1, h2⟩
        · exfalso
          rcases List.mem_map.mp h2 with ⟨y, hy, hyi⟩
          have hnone := List.find?_eq_none.mp h y hy
          simp [hyi] at hnone
        · exact ⟨h1, h2⟩

/-- C6 as amended: the join keeps exactly the stations whose identifier
appears in both feeds (inner join; no duplicate identifiers given distinct
identifiers in the status feed), dropping non-matching rows without
aborting; `get_data` returns the joined result as data — including when
zero stations survive the join, which yields an ordinary empty dataset
rather than a fetch failure. -/
theorem join_latlon_inner_join (s : List StatusRow) (l : List LatlonRow)
    (hs : (s.map StatusRow.station_id).Nodup) :
    ((join_latlon s l).map JoinedRow.station_id).Nodup ∧
    (∀ i : String, i ∈ (join_latlon s l).map JoinedRow.station_id ↔
      i ∈ s.map StatusRow.station_id ∧ i ∈ l.map LatlonRow.station_id) ∧
    (get_data (some s) (some l)).1 = some (join_latlon s l) :=
  ⟨List.Nodup.sublist (join_latlon_ids_sublist s l) hs,
   fun i => mem_join_latlon_ids s l i, rfl⟩

/-- Witness for the amended C6 at a concrete pair of feeds. -/
theorem join_latlon_inner_join_witness :
    (([sampleStatusA].map StatusRow.station_id).Nodup) ∧
    (((join_latlon [sampleStatusA] [sampleLatlonB]).map
        JoinedRow.station_id).Nodup ∧
      (∀ i : String,
        i ∈ (join_latlon [sampleStatusA] [sampleLatlonB]).map
            JoinedRow.station_id ↔
          i ∈ [sampleStatusA].map StatusRow.station_id ∧
            i ∈ [sampleLatlonB].map LatlonRow.station_id) ∧
      (get_data (some [sampleStatusA]) (some [sampleLatlonB])).1 =
        some (join_latlon [sampleStatusA] [sampleLatlonB])) :=
  ⟨by decide, join_latlon_inner_join [sampleStatusA] [sampleLatlonB] (by decide)⟩

/-- C6 counterexample: when the two feeds share no identifier, the join is
empty, yet `get_data` returns `some []` — an ordinary (empty) dataset, not
the `none` that represents a fetch failure to its caller.  This falsifies
"a join in which zero stations survive is treated as a fetch failure". -/
theorem join_empty_returned_as_data :
    join_latlon [sampleStatusA] [sampleLatlonB] = ([] : List JoinedRow) ∧
    (get_data (some [sampleStatusA]) (some [sampleLatlonB])).1 =
      some ([] : List JoinedRow) ∧
    some ([] : List JoinedRow) ≠ (none : Option (List JoinedRow)) := by
  refine ⟨by decide, by decide, by simp⟩

lemma hav_neg (θ : ℝ) : hav (-θ) = hav θ := by
  rw [hav, hav, neg_div, Real.sin_neg, neg_sq]

lemma hav_sub_comm (a b : ℝ) : hav (a - b) = hav (b - a) := by
  rw [← neg_sub b a, hav_neg]

lemma hav_zero : hav 0 = 0 := by simp [hav]

lemma two_earthRadius_nonneg : (0 : ℝ) ≤ 2 * earthRadius := by
  rw [earthRadius]; norm_num

/-- C7: the haversine distance is symmetric, vanishes on identical
coordinate pairs, and is always a finite real in `[0, π·R]` — in this
real-valued model no input produces an infinity or an undefined value. -/
theorem haversine_symm_self_bounded (lat1 lon1 lat2 lon2 : ℝ) :
    haversine lat1 lon1 lat2 lon2 = haversine lat2 lon2 lat1 lon1 ∧
    haversine lat1 lon1 lat1 lon1 = 0 ∧
    0 ≤ haversine lat1 lon1 lat2 lon2 ∧
    haversine lat1 lon1 lat2 lon2 ≤ Real.pi * earthRadius := by
  refine ⟨?_, ?_, ?_, ?_⟩
  · rw [haversine, haversine, hav_sub_comm (deg2rad lat2) (deg2rad lat1),
      hav_sub_comm (deg2rad lon2) (deg2rad lon1),
      mul_comm (Real.cos (deg2rad lat1)) (Real.cos (deg2rad lat2))]
  · rw [haversine]
    simp [sub_self, hav_zero, Real.sqrt_zero, Real.arcsin_zero]
  · exact mul_nonneg two_earthRadius_nonneg
      (Real.arcsin_nonneg.mpr (Real.sqrt_nonneg _))
  · calc 2 * earthRadius * Real.arcsin (Real.sqrt
        (hav (deg2rad lat2 - deg2rad lat1) +
          Real.cos (deg2rad lat1) * Real.cos (deg2rad lat2) *
            hav (deg2rad lon2 - deg2rad lon1)))
        ≤ 2 * earthRadius * (Real.pi / 2) :=
          mul_le_mul_of_nonneg_left (Real.arcsin_le_pi_div_two _)
            two_earthRadius_nonneg
      _ = Real.pi * earthRadius := by ring

/-- C10: pressing Reset restores exactly the five fields `findmeabike`,
`findmeadock`, `iamhere`, `iamhere_return`, `input_bike_modes` to their
initial values and leaves every other session-state field (including
`bike_method`) unchanged. -/
theorem reset_frame (s : SessionState) :
    (reset s).findmeabike = initState.findmeabike ∧
    (reset s).findmeadock = initState.findmeadock ∧
    (reset s).iamhere = initState.iamhere ∧
    (reset s).iamhere_return = initState.iamhere_return ∧
    (reset s).input_bike_modes = initState.input_bike_modes ∧
    (reset s).bike_method = s.bike_method ∧
    (reset s).input_street = s.input_street ∧
    (reset s).input_city = s.input_city ∧
    (reset s).input_country = s.input_country ∧
    (reset s).drive = s.drive ∧
    (reset s).input_street_return = s.input_street_return ∧
    (reset s).input_city_return = s.input_city_return ∧
    (reset s).input_country_return = s.input_country_return := by
  refine ⟨rfl, rfl, rfl, rfl, rfl, rfl, rfl, rfl, rfl, rfl, rfl, rfl, rfl⟩

end BikeShare
